import Mathlib

/-!
Verification of the health-check monitoring subsystem and the
post-launch docker hook module of this repository.

The repository ships the test suite of the health-check subsystem
(src/src/tests/health_check_tests.cpp) together with one example module
(src/src/examples/post_launch_docker_hook_module.cpp).  The health-check
implementation itself is not part of the repository, so the Health
Monitor state machine, the Spec Validator and the Check Executor are
modelled from the specification; the hook module definitions are
translated directly from its source file.
-/

namespace Mesos

/-- Modelled from the spec: the monitor-relevant configuration fields of a
HealthCheckSpec (spec section 3).  The implementation of the Health Monitor is
missing from src/; only its tests are present.  delaySeconds and
intervalSeconds only affect wall-clock scheduling, not which outcomes are
masked, reported or counted, so they are not part of this model. -/
structure MonitorSpec where
  gracePeriodSeconds : Nat
  consecutiveFailureThreshold : Nat
deriving DecidableEq

/-- Modelled from the spec: the result of one Check Executor invocation
(spec section 3, ProbeOutcome).  The diagnostic string and timestamp carry no
monitor-visible behaviour and are omitted. -/
structure ProbeOutcome where
  healthy : Bool
  timedOut : Bool
deriving DecidableEq

/-- Modelled from the spec: one report delivered to the Status Reporter
(spec section 6, onHealthReport). -/
structure Report where
  healthy : Bool
  terminated : Bool
deriving DecidableEq

/-- Modelled from the spec: MonitorState (spec section 3).  The
lastReportedHealthy field is documented as informational only, never used as a
reporting gate, so it is omitted from the model. -/
structure MonitorState where
  everSucceeded : Bool
  consecutiveFailures : Nat
  terminal : Bool
deriving DecidableEq

/-- Modelled from the spec: the MonitorState created when a workload starts. -/
def initialState : MonitorState :=
  { everSucceeded := false, consecutiveFailures := 0, terminal := false }

/-- Modelled from the spec: the grace-period mask condition of spec section
4.3 step 3: withinGrace = elapsed < gracePeriodSeconds AND not everSucceeded. -/
def withinGrace (cfg : MonitorSpec) (elapsed : Nat) (st : MonitorState) : Bool :=
  decide (elapsed < cfg.gracePeriodSeconds) && !st.everSucceeded

/-- Result of one monitor tick: the successor state, the reports emitted to
the Status Reporter during the tick, and how many terminateWorkload
directives were issued (0 or 1). -/
structure TickResult where
  state : MonitorState
  reports : List Report
  terminations : Nat
deriving DecidableEq

/-- Modelled from the spec: steps 3 to 5 of the transition algorithm of spec
section 4.3, applied to the outcome of one probe.  A failing outcome within
grace is discarded entirely; an un-masked success sets everSucceeded and
resets the counter; an un-masked failure increments the counter, and when the
threshold is positive and reached, the monitor issues one terminateWorkload
directive and a second, separate terminal report. -/
def tick (cfg : MonitorSpec) (elapsed : Nat) (st : MonitorState)
    (o : ProbeOutcome) : TickResult :=
  if !o.healthy && withinGrace cfg elapsed st then
    { state := st, reports := [], terminations := 0 }
  else if o.healthy then
    { state := { st with everSucceeded := true, consecutiveFailures := 0 },
      reports := [{ healthy := true, terminated := false }],
      terminations := 0 }
  else
    let failures := st.consecutiveFailures + 1
    if 0 < cfg.consecutiveFailureThreshold ∧
        cfg.consecutiveFailureThreshold ≤ failures then
      { state := { st with consecutiveFailures := failures, terminal := true },
        reports := [{ healthy := false, terminated := false },
                    { healthy := false, terminated := true }],
        terminations := 1 }
    else
      { state := { st with consecutiveFailures := failures },
        reports := [{ healthy := false, terminated := false }],
        terminations := 0 }

/-- Result of a whole monitor run: final state, concatenated reports,
total terminateWorkload directives, and the number of probes that actually
executed. -/
structure RunResult where
  state : MonitorState
  reports : List Report
  terminations : Nat
  probesRun : Nat
deriving DecidableEq

/-- Modelled from the spec: the timer loop of spec section 4.3 driven over an
explicit trace of probes, each given as the elapsed time since startedAt at
which it fires together with its outcome.  Once the monitor is Terminal no
further probes are scheduled (spec section 4.3 step 5), so the remaining
trace is ignored. -/
def runMonitor (cfg : MonitorSpec) (st : MonitorState) :
    List (Nat × ProbeOutcome) → RunResult
  | [] => { state := st, reports := [], terminations := 0, probesRun := 0 }
  | (e, o) :: rest =>
    if st.terminal then
      { state := st, reports := [], terminations := 0, probesRun := 0 }
    else
      let t := tick cfg e st o
      let r := runMonitor cfg t.state rest
      { state := r.state,
        reports := t.reports ++ r.reports,
        terminations := t.terminations + r.terminations,
        probesRun := r.probesRun + 1 }

/-- Modelled from the spec: CommandPayload (spec section 3); arguments and
environment are irrelevant to validation and omitted. -/
structure CommandPayload where
  value : String
  shell : Bool
deriving DecidableEq

/-- Modelled from the spec: HttpPayload (spec section 3). -/
structure HttpPayload where
  port : Nat
  scheme : Option String
  path : Option String
deriving DecidableEq

/-- Modelled from the spec: TcpPayload (spec section 3); the port may be
unset in an unvalidated spec and validation requires it to be set. -/
structure TcpPayload where
  port : Option Nat
deriving DecidableEq

/-- Modelled from the spec: the kind enum of a HealthCheckSpec, including the
unknown value that validation must reject (spec sections 3 and 4.1). -/
inductive HealthCheckKind
  | unknown
  | command
  | http
  | tcp
deriving DecidableEq

/-- Modelled from the spec: an unvalidated HealthCheckSpec as handed to the
Spec Validator: the kind may be absent or unknown, and each payload may be
absent (spec sections 3 and 4.1). -/
structure HealthCheckSpec where
  kind : Option HealthCheckKind
  command : Option CommandPayload
  http : Option HttpPayload
  tcp : Option TcpPayload
deriving DecidableEq

/-- Modelled from the spec: whether a path string begins with a slash
(spec section 4.1, the rule for an http path). -/
def startsWithSlash (p : String) : Bool :=
  match p.data with
  | [] => false
  | c :: _ => c == '/'

/-- Modelled from the spec: the Spec Validator of spec section 4.1,
validation::healthCheck in the tests.  Rules in order: the kind must be one
of the three known values; for Command the payload must be present with a
non-empty value; for Http, when a scheme is set it must be http or https and
when a path is set it must begin with a slash; for Tcp the port must be set.
The first violation is reported. -/
def validate (s : HealthCheckSpec) : Option String :=
  match s.kind with
  | none => some "a known health check type is required"
  | some HealthCheckKind.unknown => some "a known health check type is required"
  | some HealthCheckKind.command =>
    match s.command with
    | none => some "a command health check requires a command"
    | some c =>
      if c.value = "" then some "a command health check requires a non-empty value"
      else none
  | some HealthCheckKind.http =>
    match s.http with
    | none => some "an http health check requires an http payload"
    | some h =>
      if (match h.scheme with
          | some sc => !(sc == "http" || sc == "https")
          | none => false) then
        some "an http health check scheme must be http or https"
      else if (match h.path with
          | some p => !(startsWithSlash p)
          | none => false) then
        some "an http health check path must begin with a slash"
      else none
  | some HealthCheckKind.tcp =>
    match s.tcp with
    | none => some "a tcp health check requires a tcp payload"
    | some t =>
      match t.port with
      | none => some "a tcp health check requires a port"
      | some _ => none

/-- Modelled from the spec: timeout enforcement in the Check Executor (spec
section 4.2).  The first argument tells whether the underlying operation
completed within timeoutSeconds, the second the health result the completed
operation would report.  When the operation does not complete in time the
executor abandons it and returns timedOut = true, healthy = false. -/
def execute (completedWithinTimeout : Bool) (operationHealthy : Bool) :
    ProbeOutcome :=
  if completedWithinTimeout then
    { healthy := operationHealthy, timedOut := false }
  else
    { healthy := false, timedOut := true }

/-- Observable outcome of spawning and waiting for the child process started
by runCommand in post_launch_docker_hook_module.cpp: the subprocess call may
fail to spawn, the reaped status may be absent, and otherwise an exit status
and captured standard error are available. -/
structure CommandRun where
  spawnError : Option String
  exitStatus : Option Int
  stderrOutput : String
deriving DecidableEq

/-- Translation of runCommand together with checkError and checkError2 from
post_launch_docker_hook_module.cpp lines 46 to 98: a spawn failure, an absent
status, or a non-zero exit status all make the returned future fail, and a
zero exit status yields Nothing. -/
def runCommand (cmd : String) (r : CommandRun) : Except String Unit :=
  match r.spawnError with
  | some e => Except.error e
  | none =>
    match r.exitStatus with
    | none => Except.error ("No status found for " ++ cmd)
    | some status =>
      if status ≠ 0 then
        Except.error ("Failed to " ++ cmd ++ ": exit status = " ++
          toString status ++ " stderr = " ++ r.stderrOutput)
      else
        Except.ok ()

/-- Translation of PostLaunchDockerHook::slavePostLaunchDockerHook from
post_launch_docker_hook_module.cpp lines 163 to 177: the hook starts
runCommand on cmd followed by a space and the container name, discards the
returned future, and returns Nothing unconditionally. -/
def slavePostLaunchDockerHook (cmd name : String) (r : CommandRun) :
    Except String Unit :=
  let _ := runCommand (cmd ++ " " ++ name) r
  Except.ok ()

/-- Translation of the Parameter protobuf as used by createHook: a key and a
value. -/
structure Parameter where
  key : String
  value : String
deriving DecidableEq

/-- Translation of createHook from post_launch_docker_hook_module.cpp lines
220 to 230, restricted to the command string it stores in the constructed
PostLaunchDockerHook: the loop starts from the default and overwrites the
command with the value of every parameter whose key is cmd. -/
def createHookCmd (parameters : List Parameter) : String :=
  parameters.foldl
    (fun cmd p => if p.key == "cmd" then p.value else cmd)
    "/usr/local/bin/linkerconfig"

/-!
Helper lemmas about single ticks and whole monitor runs.
-/

/-- A monitor that has ever succeeded is never within grace. -/
lemma withinGrace_of_everSucceeded (cfg : MonitorSpec) (e : Nat) (st : MonitorState)
    (hs : st.everSucceeded = true) : withinGrace cfg e st = false := by
  simp [withinGrace, hs]

/-- With a zero grace period no probe is ever within grace. -/
lemma withinGrace_of_grace_zero (cfg : MonitorSpec) (e : Nat) (st : MonitorState)
    (hg : cfg.gracePeriodSeconds = 0) : withinGrace cfg e st = false := by
  simp [withinGrace, hg]

/-- A failing outcome within grace is discarded entirely: the state is
unchanged, no report is emitted and no directive is issued. -/
lemma tick_masked (cfg : MonitorSpec) (e : Nat) (st : MonitorState) (o : ProbeOutcome)
    (ho : o.healthy = false) (hg : withinGrace cfg e st = true) :
    tick cfg e st o = { state := st, reports := [], terminations := 0 } := by
  simp [tick, ho, hg]

/-- A successful outcome sets everSucceeded, resets the counter and emits one
healthy report. -/
lemma tick_success (cfg : MonitorSpec) (e : Nat) (st : MonitorState) (o : ProbeOutcome)
    (ho : o.healthy = true) :
    tick cfg e st o =
      { state := { st with everSucceeded := true, consecutiveFailures := 0 },
        reports := [{ healthy := true, terminated := false }],
        terminations := 0 } := by
  simp [tick, ho]

/-- An un-masked failure below the threshold increments the counter and emits
one unhealthy report. -/
lemma tick_failure_no_escalation (cfg : MonitorSpec) (e : Nat) (st : MonitorState)
    (o : ProbeOutcome) (ho : o.healthy = false) (hg : withinGrace cfg e st = false)
    (hth : ¬ (0 < cfg.consecutiveFailureThreshold ∧
      cfg.consecutiveFailureThreshold ≤ st.consecutiveFailures + 1)) :
    tick cfg e st o =
      { state := { st with consecutiveFailures := st.consecutiveFailures + 1 },
        reports := [{ healthy := false, terminated := false }],
        terminations := 0 } := by
  simp [tick, ho, hg, hth]

/-- An un-masked failure that reaches a positive threshold emits the ordinary
failure report, issues the terminateWorkload directive and emits the second,
terminal report. -/
lemma tick_failure_escalation (cfg : MonitorSpec) (e : Nat) (st : MonitorState)
    (o : ProbeOutcome) (ho : o.healthy = false) (hg : withinGrace cfg e st = false)
    (hth : 0 < cfg.consecutiveFailureThreshold ∧
      cfg.consecutiveFailureThreshold ≤ st.consecutiveFailures + 1) :
    tick cfg e st o =
      { state :=
          { st with consecutiveFailures := st.consecutiveFailures + 1, terminal := true },
        reports := [{ healthy := false, terminated := false },
                    { healthy := false, terminated := true }],
        terminations := 1 } := by
  simp [tick, ho, hg, hth]

/-- Running no probes leaves the monitor alone. -/
lemma runMonitor_nil (cfg : MonitorSpec) (st : MonitorState) :
    runMonitor cfg st [] =
      { state := st, reports := [], terminations := 0, probesRun := 0 } :=
  rfl

/-- Once Terminal, the monitor ignores the whole remaining trace. -/
lemma runMonitor_terminal (cfg : MonitorSpec) (st : MonitorState)
    (h : st.terminal = true) (l : List (Nat × ProbeOutcome)) :
    runMonitor cfg st l =
      { state := st, reports := [], terminations := 0, probesRun := 0 } := by
  cases l with
  | nil => rfl
  | cons p rest =>
    obtain ⟨e, o⟩ := p
    simp [runMonitor, h]

/-- Unfolding one step of a non-terminal run. -/
lemma runMonitor_cons (cfg : MonitorSpec) (st : MonitorState) (h : st.terminal = false)
    (e : Nat) (o : ProbeOutcome) (rest : List (Nat × ProbeOutcome)) :
    runMonitor cfg st ((e, o) :: rest) =
      { state := (runMonitor cfg (tick cfg e st o).state rest).state,
        reports := (tick cfg e st o).reports ++
          (runMonitor cfg (tick cfg e st o).state rest).reports,
        terminations := (tick cfg e st o).terminations +
          (runMonitor cfg (tick cfg e st o).state rest).terminations,
        probesRun := (runMonitor cfg (tick cfg e st o).state rest).probesRun + 1 } := by
  simp [runMonitor, h]

/-- With a zero grace period, a stretch of failures that stays below the
threshold only accumulates the counter, one unhealthy report per probe. -/
lemma runMonitor_fail_below_threshold (cfg : MonitorSpec)
    (hg : cfg.gracePeriodSeconds = 0) :
    ∀ (k : Nat) (es : Bool) (c : Nat),
      (cfg.consecutiveFailureThreshold = 0 ∨ c + k < cfg.consecutiveFailureThreshold) →
      runMonitor cfg ⟨es, c, false⟩
          (List.replicate k (0, { healthy := false, timedOut := false })) =
        { state := ⟨es, c + k, false⟩,
          reports := List.replicate k { healthy := false, terminated := false },
          terminations := 0, probesRun := k } := by
  intro k
  induction k with
  | zero => intro es c _; simp [runMonitor_nil]
  | succ n ih =>
    intro es c hc
    rw [List.replicate_succ]
    rw [runMonitor_cons cfg ⟨es, c, false⟩ rfl]
    rw [tick_failure_no_escalation cfg 0 ⟨es, c, false⟩ _ rfl
      (withinGrace_of_grace_zero cfg 0 ⟨es, c, false⟩ hg)
      (by
        show ¬ (0 < cfg.consecutiveFailureThreshold ∧
          cfg.consecutiveFailureThreshold ≤ c + 1)
        omega)]
    have h2 := ih es (c + 1) (by omega)
    simp only at h2 ⊢
    rw [h2]
    simp [List.replicate_succ]
    omega

/-- With a zero grace period and enough failing probes available, the monitor
emits one unhealthy report per probe up to the threshold, escalates exactly
once and then stops scheduling. -/
lemma runMonitor_fail_escalates (cfg : MonitorSpec)
    (hg : cfg.gracePeriodSeconds = 0) :
    ∀ (M : Nat) (es : Bool) (c : Nat),
      c < cfg.consecutiveFailureThreshold →
      cfg.consecutiveFailureThreshold ≤ c + M →
      runMonitor cfg ⟨es, c, false⟩
          (List.replicate M (0, { healthy := false, timedOut := false })) =
        { state := ⟨es, cfg.consecutiveFailureThreshold, true⟩,
          reports :=
            List.replicate (cfg.consecutiveFailureThreshold - c)
              { healthy := false, terminated := false } ++
            [{ healthy := false, terminated := true }],
          terminations := 1,
          probesRun := cfg.consecutiveFailureThreshold - c } := by
  intro M
  induction M with
  | zero => intro es c hc hM; omega
  | succ n ih =>
    intro es c hc hM
    rw [List.replicate_succ]
    rw [runMonitor_cons cfg ⟨es, c, false⟩ rfl]
    by_cases hesc : cfg.consecutiveFailureThreshold ≤ c + 1
    · have hceq : cfg.consecutiveFailureThreshold = c + 1 := by omega
      rw [tick_failure_escalation cfg 0 ⟨es, c, false⟩ _ rfl
        (withinGrace_of_grace_zero cfg 0 ⟨es, c, false⟩ hg)
        (by
          show 0 < cfg.consecutiveFailureThreshold ∧
            cfg.consecutiveFailureThreshold ≤ c + 1
          omega)]
      simp only
      rw [runMonitor_terminal cfg _ rfl]
      have h1 : cfg.consecutiveFailureThreshold - c = 1 := by omega
      simp [h1, hceq]
    · rw [tick_failure_no_escalation cfg 0 ⟨es, c, false⟩ _ rfl
        (withinGrace_of_grace_zero cfg 0 ⟨es, c, false⟩ hg)
        (by
          show ¬ (0 < cfg.consecutiveFailureThreshold ∧
            cfg.consecutiveFailureThreshold ≤ c + 1)
          omega)]
      have h2 := ih es (c + 1) (by omega) (by omega)
      simp only at h2 ⊢
      rw [h2]
      have h3 : cfg.consecutiveFailureThreshold - c =
        (cfg.consecutiveFailureThreshold - (c + 1)) + 1 := by omega
      rw [h3, List.replicate_succ]
      simp

/-- With a zero threshold no single tick issues a directive or changes the
terminal flag. -/
lemma tick_threshold_zero (cfg : MonitorSpec)
    (hth : cfg.consecutiveFailureThreshold = 0) (e : Nat) (st : MonitorState)
    (o : ProbeOutcome) :
    (tick cfg e st o).terminations = 0 ∧
    (tick cfg e st o).state.terminal = st.terminal := by
  cases ho : o.healthy <;> simp [tick, ho, hth]
  split <;> simp

/-- With a zero threshold no run issues a directive or changes the terminal
flag. -/
lemma runMonitor_threshold_zero (cfg : MonitorSpec)
    (hth : cfg.consecutiveFailureThreshold = 0) :
    ∀ (l : List (Nat × ProbeOutcome)) (st : MonitorState),
      (runMonitor cfg st l).terminations = 0 ∧
      (runMonitor cfg st l).state.terminal = st.terminal := by
  intro l
  induction l with
  | nil => intro st; simp [runMonitor_nil]
  | cons p rest ih =>
    intro st
    obtain ⟨e, o⟩ := p
    by_cases ht : st.terminal
    · rw [runMonitor_terminal cfg st ht]
      exact ⟨rfl, rfl⟩
    · rw [runMonitor_cons cfg st (by simpa using ht)]
      have h1 := tick_threshold_zero cfg hth e st o
      have h2 := ih (tick cfg e st o).state
      simp only
      constructor
      · omega
      · rw [h2.2, h1.2]

/-- A run in which every probe fails inside the grace window, starting before
any success has ever been observed, leaves no observable trace at all. -/
lemma runMonitor_all_masked (cfg : MonitorSpec) (st : MonitorState)
    (hes : st.everSucceeded = false) (ht : st.terminal = false) :
    ∀ (l : List (Nat × ProbeOutcome)),
      (∀ p ∈ l, (p.2).healthy = false ∧ p.1 < cfg.gracePeriodSeconds) →
      runMonitor cfg st l =
        { state := st, reports := [], terminations := 0, probesRun := l.length } := by
  intro l
  induction l with
  | nil => intro _; simp [runMonitor_nil]
  | cons p rest ih =>
    intro hall
    obtain ⟨e, o⟩ := p
    have hp := hall (e, o) (by simp)
    rw [runMonitor_cons cfg st ht]
    rw [tick_masked cfg e st o hp.1
      (by simp [withinGrace, hes]; exact hp.2)]
    rw [ih (fun q hq => hall q (by simp [hq]))]
    simp

/-- Characterization of the createHook loop as the last matching parameter:
folding the overwrite step over the list returns the value of the last
parameter whose key is cmd, or the accumulator when there is none. -/
lemma foldl_cmd_eq_getLast (ps : List Parameter) :
    ∀ acc : String,
      ps.foldl (fun cmd p => if p.key == "cmd" then p.value else cmd) acc =
        (((ps.filter (fun p => p.key == "cmd")).getLast?).map Parameter.value).getD acc := by
  induction ps with
  | nil => intro acc; rfl
  | cons q qs ih =>
    intro acc
    rw [List.foldl_cons, List.filter_cons]
    by_cases hq : (q.key == "cmd") = true
    · rw [if_pos hq]
      simp only [hq, if_true]
      cases hqs : qs.filter (fun p => p.key == "cmd") with
      | nil =>
        rw [ih q.value, hqs]
        rfl
      | cons b bs =>
        rw [ih q.value, hqs, List.getLast?_cons_cons]
        have hsome : (b :: bs).getLast?.isSome := by
          rw [List.getLast?_isSome]; simp
        obtain ⟨x, hx⟩ := Option.isSome_iff_exists.mp hsome
        rw [hx]
        rfl
    · rw [if_neg hq]
      simp only [hq, if_false]
      exact ih acc

/-!
Claim theorems.
-/

/-- Claim C1: once the history contains a success (everSucceeded is true),
every later failing probe outcome is un-masked: it is reported (the ordinary
unhealthy report leads the reports of its tick) and counted (the consecutive
failure counter increments), no matter how much grace time remains; and a
successful outcome is never masked, being reported on every tick. -/
theorem grace_mask_ends_after_first_success (cfg : MonitorSpec) (e : Nat)
    (st : MonitorState) (o : ProbeOutcome) :
    (st.everSucceeded = true → o.healthy = false →
      (tick cfg e st o).reports.head? =
        some { healthy := false, terminated := false } ∧
      (tick cfg e st o).state.consecutiveFailures = st.consecutiveFailures + 1) ∧
    (o.healthy = true →
      (tick cfg e st o).reports = [{ healthy := true, terminated := false }]) := by
  constructor
  · intro hs ho
    have hw := withinGrace_of_everSucceeded cfg e st hs
    by_cases hesc : 0 < cfg.consecutiveFailureThreshold ∧
        cfg.consecutiveFailureThreshold ≤ st.consecutiveFailures + 1
    · rw [tick_failure_escalation cfg e st o ho hw hesc]
      exact ⟨rfl, rfl⟩
    · rw [tick_failure_no_escalation cfg e st o ho hw hesc]
      exact ⟨rfl, rfl⟩
  · intro ho
    rw [tick_success cfg e st o ho]

/-- Witness for claim C1, evaluated at elapsed time 5 inside a grace window
of 9999 seconds with everSucceeded already true. -/
theorem grace_mask_ends_after_first_success_witness :
    (tick ⟨9999, 0⟩ 5 ⟨true, 0, false⟩ ⟨false, false⟩).reports.head? =
      some { healthy := false, terminated := false } ∧
    (tick ⟨9999, 0⟩ 5 ⟨true, 0, false⟩ ⟨true, false⟩).reports =
      [{ healthy := true, terminated := false }] :=
  ⟨((grace_mask_ends_after_first_success ⟨9999, 0⟩ 5 ⟨true, 0, false⟩
      ⟨false, false⟩).1 rfl rfl).1,
   (grace_mask_ends_after_first_success ⟨9999, 0⟩ 5 ⟨true, 0, false⟩
      ⟨true, false⟩).2 rfl⟩

/-- Claim C2: with threshold N greater than 0 and no grace period, against an
always-failing probe the monitor emits exactly N ordinary failure reports
followed by exactly one terminal report, issues terminateWorkload exactly
once and runs exactly N probes no matter how many more were available. -/
theorem threshold_escalation_exact_reports (N M : Nat) (hN : 0 < N) (hM : N ≤ M) :
    runMonitor ⟨0, N⟩ initialState
        (List.replicate M (0, { healthy := false, timedOut := false })) =
      { state := ⟨false, N, true⟩,
        reports := List.replicate N { healthy := false, terminated := false } ++
          [{ healthy := false, terminated := true }],
        terminations := 1, probesRun := N } := by
  have h := runMonitor_fail_escalates ⟨0, N⟩ rfl M false 0 hN
    (by show N ≤ 0 + M; omega)
  simpa [initialState] using h

/-- Witness for claim C2 with threshold 4 and 6 failing probes available. -/
theorem threshold_escalation_exact_reports_witness :
    runMonitor ⟨0, 4⟩ initialState
        (List.replicate 6 (0, { healthy := false, timedOut := false })) =
      { state := ⟨false, 4, true⟩,
        reports := List.replicate 4 { healthy := false, terminated := false } ++
          [{ healthy := false, terminated := true }],
        terminations := 1, probesRun := 4 } :=
  threshold_escalation_exact_reports 4 6 (by decide) (by decide)

/-- Claim C3: with a positive grace period and threshold 0, when every probe
fails before any success is ever observed and fires inside the grace window,
no report is emitted, no directive is issued and the state is unchanged, as
if the probes never ran. -/
theorem grace_masks_all_failures_before_first_success (cfg : MonitorSpec)
    (hg : 0 < cfg.gracePeriodSeconds) (hth : cfg.consecutiveFailureThreshold = 0)
    (st : MonitorState) (hes : st.everSucceeded = false) (ht : st.terminal = false)
    (l : List (Nat × ProbeOutcome))
    (hall : ∀ p ∈ l, (p.2).healthy = false ∧ p.1 < cfg.gracePeriodSeconds) :
    runMonitor cfg st l =
      { state := st, reports := [], terminations := 0, probesRun := l.length } :=
  runMonitor_all_masked cfg st hes ht l hall

/-- Witness for claim C3: three failing probes, one a timeout, all inside a
9999 second grace window, leave no trace. -/
theorem grace_masks_all_failures_before_first_success_witness :
    runMonitor ⟨9999, 0⟩ initialState
        [(0, { healthy := false, timedOut := false }),
         (1, { healthy := false, timedOut := true }),
         (2, { healthy := false, timedOut := false })] =
      { state := initialState, reports := [], terminations := 0, probesRun := 3 } :=
  grace_masks_all_failures_before_first_success ⟨9999, 0⟩ (by decide) rfl
    initialState rfl rfl _ (by decide)

/-- Counterexample to claim C4 as stated: with threshold N = 1, the history
of one un-masked failure, one success and N - 1 = 0 further failures does
escalate, because the very first failure already reaches the threshold before
the success can reset the counter; terminateWorkload is invoked once. -/
theorem reset_on_success_fails_at_threshold_one :
    (runMonitor ⟨0, 1⟩ initialState
        ((0, { healthy := false, timedOut := false }) ::
         (0, { healthy := true, timedOut := false }) ::
         List.replicate (1 - 1)
           (0, { healthy := false, timedOut := false }))).terminations = 1 ∧
    (runMonitor ⟨0, 1⟩ initialState
        ((0, { healthy := false, timedOut := false }) ::
         (0, { healthy := true, timedOut := false }) ::
         List.replicate (1 - 1)
           (0, { healthy := false, timedOut := false }))).state.terminal = true := by
  decide

/-- Claim C4 as amended: for every threshold N other than 1, a history of one
un-masked failure, then one success, then N - 1 more failures does not
trigger escalation: the success resets the counter to 0 and sets
everSucceeded, the counter only reaches N - 1, and terminateWorkload is never
invoked. -/
theorem reset_on_success_prevents_escalation (N : Nat) (hN : N ≠ 1) :
    runMonitor ⟨0, N⟩ initialState
        ((0, { healthy := false, timedOut := false }) ::
         (0, { healthy := true, timedOut := false }) ::
         List.replicate (N - 1) (0, { healthy := false, timedOut := false })) =
      { state := ⟨true, N - 1, false⟩,
        reports := { healthy := false, terminated := false } ::
          { healthy := true, terminated := false } ::
          List.replicate (N - 1) { healthy := false, terminated := false },
        terminations := 0, probesRun := (N - 1) + 2 } := by
  match N, hN with
  | 0, _ => decide
  | (n + 2), _ =>
    rw [runMonitor_cons ⟨0, n + 2⟩ initialState rfl]
    rw [tick_failure_no_escalation ⟨0, n + 2⟩ 0 initialState _ rfl
      (withinGrace_of_grace_zero ⟨0, n + 2⟩ 0 initialState rfl)
      (by show ¬ (0 < n + 2 ∧ n + 2 ≤ 0 + 1); omega)]
    simp only [initialState]
    rw [runMonitor_cons ⟨0, n + 2⟩ ⟨false, 0 + 1, false⟩ rfl]
    rw [tick_success ⟨0, n + 2⟩ 0 ⟨false, 0 + 1, false⟩ _ rfl]
    simp only
    rw [runMonitor_fail_below_threshold ⟨0, n + 2⟩ rfl (n + 2 - 1) true 0
      (by show (n + 2 : Nat) = 0 ∨ 0 + (n + 2 - 1) < n + 2; omega)]
    simp

/-- Witness for the amended claim C4 at threshold 3. -/
theorem reset_on_success_prevents_escalation_witness :
    runMonitor ⟨0, 3⟩ initialState
        ((0, { healthy := false, timedOut := false }) ::
         (0, { healthy := true, timedOut := false }) ::
         List.replicate (3 - 1) (0, { healthy := false, timedOut := false })) =
      { state := ⟨true, 3 - 1, false⟩,
        reports := { healthy := false, terminated := false } ::
          { healthy := true, terminated := false } ::
          List.replicate (3 - 1) { healthy := false, terminated := false },
        terminations := 0, probesRun := (3 - 1) + 2 } :=
  reset_on_success_prevents_escalation 3 (by decide)

/-- Claim C5: validate rejects an absent or unknown kind, a Command spec with
an absent payload or empty command value, an Http spec whose scheme is
neither http nor https, and an Http spec whose set path does not begin with a
slash; it accepts an Http spec with only the port set, a Tcp spec with the
port set, and a Command spec with a non-empty value. -/
theorem validate_rules :
    (∀ s : HealthCheckSpec,
      s.kind = none ∨ s.kind = some HealthCheckKind.unknown →
      (validate s).isSome = true) ∧
    (∀ s : HealthCheckSpec, s.kind = some HealthCheckKind.command →
      (s.command = none ∨ ∃ c, s.command = some c ∧ c.value = "") →
      (validate s).isSome = true) ∧
    (∀ (s : HealthCheckSpec) (h : HttpPayload) (sc : String),
      s.kind = some HealthCheckKind.http → s.http = some h →
      h.scheme = some sc → sc ≠ "http" → sc ≠ "https" →
      (validate s).isSome = true) ∧
    (∀ (s : HealthCheckSpec) (h : HttpPayload) (p : String),
      s.kind = some HealthCheckKind.http → s.http = some h →
      h.path = some p → startsWithSlash p = false →
      (validate s).isSome = true) ∧
    (∀ port : Nat,
      validate ⟨some HealthCheckKind.http, none, some ⟨port, none, none⟩, none⟩ = none) ∧
    (∀ (port : Nat) (cmd : Option CommandPayload) (ht : Option HttpPayload),
      validate ⟨some HealthCheckKind.tcp, cmd, ht, some ⟨some port⟩⟩ = none) ∧
    (∀ (v : String) (sh : Bool), v ≠ "" →
      validate ⟨some HealthCheckKind.command, some ⟨v, sh⟩, none, none⟩ = none) := by
  refine ⟨?_, ?_, ?_, ?_, ?_, ?_, ?_⟩
  · rintro s (hk | hk) <;> simp [validate, hk]
  · rintro s hk (hc | ⟨c, hc, hv⟩)
    · simp [validate, hk, hc]
    · simp [validate, hk, hc, hv]
  · intro s h sc hk hh hsc h1 h2
    obtain ⟨port, scheme, path⟩ := h
    simp only at hsc
    subst hsc
    simp [validate, hk, hh, h1, h2]
  · intro s h p hk hh hp hsw
    obtain ⟨port, scheme, path⟩ := h
    simp only at hp
    subst hp
    simp only [validate, hk, hh]
    cases scheme with
    | none => simp [hsw]
    | some sc =>
      by_cases hgood : (sc == "http" || sc == "https") = true
      · simp [hgood, hsw]
      · simp only [Bool.not_eq_true] at hgood
        simp [hgood]
  · intro port; rfl
  · intro port cmd ht; rfl
  · intro v sh hv; simp [validate, hv]

/-- Witness for claim C5, instantiating every rule at the concrete specs of
the validation test: unset kind, unknown kind, Command without payload,
Command with empty value, scheme ftp, path healthz, Http with only a port,
Tcp with a port, and a Command with a shell command. -/
theorem validate_rules_witness :
    (validate ⟨none, none, none, none⟩).isSome = true ∧
    (validate ⟨some HealthCheckKind.unknown, none, none, none⟩).isSome = true ∧
    (validate ⟨some HealthCheckKind.command, none, none, none⟩).isSome = true ∧
    (validate ⟨some HealthCheckKind.command, some ⟨"", true⟩, none, none⟩).isSome = true ∧
    (validate ⟨some HealthCheckKind.http, none,
      some ⟨8080, some "ftp", none⟩, none⟩).isSome = true ∧
    (validate ⟨some HealthCheckKind.http, none,
      some ⟨8080, some "https", some "healthz"⟩, none⟩).isSome = true ∧
    validate ⟨some HealthCheckKind.http, none, some ⟨8080, none, none⟩, none⟩ = none ∧
    validate ⟨some HealthCheckKind.tcp, none, none, some ⟨some 8080⟩⟩ = none ∧
    validate ⟨some HealthCheckKind.command, some ⟨"exit 0", true⟩, none, none⟩ = none :=
  ⟨validate_rules.1 _ (Or.inl rfl),
   validate_rules.1 _ (Or.inr rfl),
   validate_rules.2.1 _ rfl (Or.inl rfl),
   validate_rules.2.1 _ rfl (Or.inr ⟨_, rfl, rfl⟩),
   validate_rules.2.2.1 _ _ "ftp" rfl rfl rfl (by decide) (by decide),
   validate_rules.2.2.2.1 _ _ "healthz" rfl rfl rfl (by decide),
   validate_rules.2.2.2.2.1 8080,
   validate_rules.2.2.2.2.2.1 8080 none none,
   validate_rules.2.2.2.2.2.2 "exit 0" true (by decide)⟩

/-- Claim C6: a probe whose operation does not complete within the timeout
yields the outcome timedOut true and healthy false, a timed out outcome is
never healthy, and the monitor folds it into the failure count exactly like
an ordinary failure, continuing instead of failing fatally. -/
theorem timeout_is_ordinary_failure (c r : Bool) (cfg : MonitorSpec) (e : Nat)
    (st : MonitorState) :
    execute false r = { healthy := false, timedOut := true } ∧
    ((execute c r).timedOut && (execute c r).healthy) = false ∧
    tick cfg e st (execute false r) =
      tick cfg e st { healthy := false, timedOut := false } := by
  refine ⟨rfl, ?_, ?_⟩
  · cases c <;> cases r <;> rfl
  · rfl

/-- Claim C7: with threshold 0 the monitor never escalates: no run issues a
terminateWorkload directive or sets the terminal flag, while every un-masked
failure is still reported individually. -/
theorem threshold_zero_never_terminates (cfg : MonitorSpec)
    (hth : cfg.consecutiveFailureThreshold = 0) (st : MonitorState)
    (l : List (Nat × ProbeOutcome)) :
    (runMonitor cfg st l).terminations = 0 ∧
    (runMonitor cfg st l).state.terminal = st.terminal ∧
    (∀ (e : Nat) (o : ProbeOutcome), o.healthy = false →
      withinGrace cfg e st = false →
      (tick cfg e st o).reports = [{ healthy := false, terminated := false }]) := by
  refine ⟨(runMonitor_threshold_zero cfg hth l st).1,
    (runMonitor_threshold_zero cfg hth l st).2, ?_⟩
  intro e o ho hw
  rw [tick_failure_no_escalation cfg e st o ho hw (by omega)]

/-- Witness for claim C7: five straight failures with threshold 0 issue no
directive. -/
theorem threshold_zero_never_terminates_witness :
    (runMonitor ⟨0, 0⟩ initialState
        (List.replicate 5 (0, { healthy := false, timedOut := false }))).terminations
      = 0 :=
  (threshold_zero_never_terminates ⟨0, 0⟩ rfl initialState _).1

/-- Claim C8: whenever a tick issues the terminateWorkload directive, its
reports end with the terminal report, healthy false with the termination flag
set; a tick that issues no directive emits only reports whose termination
flag is clear, so the terminal report is distinguishable from every ordinary
failure report. -/
theorem terminal_report_distinguishable (cfg : MonitorSpec) (e : Nat)
    (st : MonitorState) (o : ProbeOutcome) :
    (0 < (tick cfg e st o).terminations →
      (tick cfg e st o).reports =
        [{ healthy := false, terminated := false },
         { healthy := false, terminated := true }] ∧
      (tick cfg e st o).reports.getLast? =
        some { healthy := false, terminated := true }) ∧
    ((tick cfg e st o).terminations = 0 →
      ∀ rep ∈ (tick cfg e st o).reports, rep.terminated = false) ∧
    (∀ rep ∈ (tick cfg e st o).reports, rep.terminated = true →
      rep.healthy = false ∧ 0 < (tick cfg e st o).terminations) := by
  by_cases hm : (!o.healthy && withinGrace cfg e st) = true
  · simp [tick, hm]
  · cases ho : o.healthy
    · simp only [Bool.not_eq_true] at hm
      have hw : withinGrace cfg e st = false := by simpa [ho] using hm
      by_cases hesc : 0 < cfg.consecutiveFailureThreshold ∧
          cfg.consecutiveFailureThreshold ≤ st.consecutiveFailures + 1
      · rw [tick_failure_escalation cfg e st o ho hw hesc]
        simp
      · rw [tick_failure_no_escalation cfg e st o ho hw hesc]
        simp
    · rw [tick_success cfg e st o ho]
      simp

/-- Witness for claim C8: the escalating tick at threshold 1 emits the
ordinary failure report and then the terminal report. -/
theorem terminal_report_distinguishable_witness :
    (tick ⟨0, 1⟩ 0 initialState { healthy := false, timedOut := false }).reports =
      [{ healthy := false, terminated := false },
       { healthy := false, terminated := true }] :=
  ((terminal_report_distinguishable ⟨0, 1⟩ 0 initialState
      { healthy := false, timedOut := false }).1 (by decide)).1

/-- Claim C9: slavePostLaunchDockerHook returns success on every input; the
result of runCommand on the configured command and container name is
discarded, so even an input on which runCommand fails leaves the returned
result unchanged. -/
theorem hook_always_returns_success (cmd name : String) (r : CommandRun) :
    slavePostLaunchDockerHook cmd name r = Except.ok () ∧
    ∃ (r2 : CommandRun) (msg : String),
      runCommand (cmd ++ " " ++ name) r2 = Except.error msg ∧
      slavePostLaunchDockerHook cmd name r2 = Except.ok () :=
  ⟨rfl, ⟨{ spawnError := some "spawn failed", exitStatus := none, stderrOutput := "" },
    "spawn failed", rfl, rfl⟩⟩

/-- Claim C10: createHook stores the value of the last parameter whose key is
cmd, or the default path when no parameter has that key; parameters with
other keys are filtered out and have no effect. -/
theorem create_hook_cmd_last_wins (ps : List Parameter) :
    createHookCmd ps =
      (((ps.filter (fun p => p.key == "cmd")).getLast?).map Parameter.value).getD
        "/usr/local/bin/linkerconfig" :=
  foldl_cmd_eq_getLast ps "/usr/local/bin/linkerconfig"

end Mesos
